import Mathlib

/-!
Shallow embedding of the OAuth2/OpenID-Connect protocol engine of
`yew-oauth2` (`src/agent/client/openid.rs`) together with the
authentication state model (`src/context.rs`).

Modelling conventions:
* Network round trips, URL parsing, discovery, identity-token
  verification and the browser clock are side effects of external
  collaborators; they enter the embedding as explicit environment
  records (`DiscoveryEnv`, `TokenEnv`) so that each engine operation is
  a pure function of its inputs and the environment's responses.
* Randomness (`PkceCodeChallenge::new_random_sha256`,
  `CsrfToken::new_random`, `Nonce::new_random`) is passed in as an
  explicit `Rng` record: the random bytes for the PKCE verifier, the
  CSRF token and the nonce.
* `Rc<IdTokenClaims<...>>` sharing is modelled by plain value equality:
  the session handle and the context's `claims` field hold the same
  `Claims` value.
* URLs are modelled structurally as a base plus an ordered list of
  query pairs, mirroring the `url` crate's `query_pairs_mut` API at the
  level of pairs (percent-encoding of the serialized form is not
  modelled; no claim depends on it).
-/

namespace YewOAuth2

/-- A URL: base (scheme/host/path) plus ordered query pairs.
Mirrors `url::Url` at the granularity the engine uses it. -/
structure Url where
  base : String
  query : List (String × String)
deriving DecidableEq, Repr

/-- `url.query_pairs_mut().append_pair(k, v)` of the `url` crate. -/
def Url.appendPair (u : Url) (k v : String) : Url :=
  { u with query := u.query ++ [(k, v)] }

/-- `Url::as_str` / `Display`: the serialized form (query pairs joined,
without modelling percent-encoding). -/
def Url.render (u : Url) : String :=
  u.base ++
    (if u.query.isEmpty then ""
     else "?" ++ String.intercalate "&" (u.query.map (fun p => p.fst ++ "=" ++ p.snd)))

/-- The verified ID-token claims payload
(`IdTokenClaims<EmptyAdditionalClaims, CoreGenderClaim>`). Its content
is never inspected by `openid.rs`, so it is kept abstract as a wrapped
payload. -/
structure Claims where
  payload : String
deriving DecidableEq, Repr

/-- An unverified identity token as found in the token response
(`CoreIdToken`). Content abstract: only verification consumes it. -/
structure IdToken where
  raw : String
deriving DecidableEq, Repr

/-- `context::Reason`: why the context is un-authenticated. -/
inductive Reason where
  | NewSession
  | Expired
  | Logout
deriving DecidableEq, Repr

/-- The payload of the `Authenticated` context variant, as built by
`openid.rs` (`Authentication { access_token, refresh_token, expires,
claims }`). -/
structure Authentication where
  access_token : String
  refresh_token : Option String
  claims : Option Claims
  expires : Option Nat
deriving DecidableEq, Repr

/-- `context::OAuth2Context`: the closed variant set of authentication
states. -/
inductive OAuth2Context where
  | NotInitialized
  | NotAuthenticated (reason : Reason)
  | Authenticated (auth : Authentication)
  | Failed (message : String)
deriving DecidableEq, Repr

/-- `OAuth2Context::access_token` accessor from `context.rs`. -/
def OAuth2Context.access_token : OAuth2Context → Option String
  | .Authenticated auth => some auth.access_token
  | _ => none

/-- `OAuth2Context::claims` accessor from `context.rs`. -/
def OAuth2Context.claims : OAuth2Context → Option Claims
  | .Authenticated auth => auth.claims
  | _ => none

/-- The two `OAuth2Error` variants `openid.rs` constructs. -/
inductive OAuth2Error where
  | Configuration (msg : String)
  | LoginResult (msg : String)
deriving DecidableEq, Repr

/-- The fields of `CoreTokenResponse` the engine reads: access token,
optional refresh token, optional declared lifetime in seconds
(`expires_in`), and the optional identity token from the extra
fields. -/
structure CoreTokenResponse where
  access_token : String
  refresh_token : Option String
  expires_in : Option Nat
  id_token : Option IdToken
deriving DecidableEq, Repr

/-- The fields of `openidconnect::core::CoreClient` the engine uses:
client id, the provider's authorization endpoint, and the (optional)
bound redirect URI. -/
structure CoreClient where
  client_id : String
  auth_url : Url
  redirect_uri : Option Url
deriving DecidableEq, Repr

/-- `CoreClient::set_redirect_uri`. -/
def CoreClient.set_redirect_uri (c : CoreClient) (u : Url) : CoreClient :=
  { c with redirect_uri := some u }

/-- The provider metadata fields the engine reads: the authorization
endpoint plus the optional provider-specific `end_session_endpoint`
from `AdditionalProviderMetadata`. -/
structure ExtendedProviderMetadata where
  auth_url : Url
  end_session_endpoint : Option Url
deriving DecidableEq, Repr

/-- `CoreClient::from_provider_metadata(metadata, client_id, None)`:
builds the client from discovered metadata, with no redirect URI bound
yet. -/
def CoreClient.from_provider_metadata (metadata : ExtendedProviderMetadata)
    (client_id : String) : CoreClient :=
  { client_id := client_id, auth_url := metadata.auth_url, redirect_uri := none }

/-- `OpenIdClient`: the engine value, a configured client handle plus
the resolved end-session URL. -/
structure OpenIdClient where
  client : CoreClient
  end_session_url : Option Url
deriving DecidableEq, Repr

/-- `OpenIdClient::set_redirect_uri` (the `Client` trait method). -/
def OpenIdClient.set_redirect_uri (self : OpenIdClient) (u : Url) : OpenIdClient :=
  { self with client := self.client.set_redirect_uri u }

/-- `OpenIdLoginState`: the per-login transaction secrets. -/
structure OpenIdLoginState where
  pkce_verifier : String
  nonce : String
deriving DecidableEq, Repr

/-- Modelled from the spec: the repository's `LoginContext` struct
(`agent::client`, not under `src/`). Per §4.3 the start-login result is
the authorization URL, the CSRF token, and the login transaction
state; `openid.rs` constructs it with exactly these three fields. -/
structure LoginContext where
  url : Url
  csrf_token : String
  state : OpenIdLoginState
deriving DecidableEq, Repr

/-- Modelled from the spec: the repository's `expires` helper
(`agent::client`, not under `src/`). Per §4.4, the expiry is `now +
declared lifetime` when the provider reports one, else absent. -/
def expires (now : Nat) (expires_in : Option Nat) : Option Nat :=
  expires_in.map (fun d => now + d)

/-- `openid::Config`: issuer URL, client id, optional explicit
end-session URL (the fields `from_config` consumes). -/
structure OpenIdConfig where
  issuer_url : String
  client_id : String
  end_session_url : Option String
deriving DecidableEq, Repr

/-- The field of `InnerConfig` that `make_login_context` reads: the
configured scopes, in caller-supplied order. -/
structure InnerConfig where
  scopes : List String
deriving DecidableEq, Repr

/-- The external collaborators of `from_config`: `IssuerUrl::new`
(issuer-URL validation), `Url::parse`, and
`ExtendedProviderMetadata::discover_async` (one network round
trip). -/
structure DiscoveryEnv where
  parseIssuer : String → Except String Url
  parseUrl : String → Except String Url
  discover : Url → Except String ExtendedProviderMetadata

/-- `Option::transpose` of Rust: `Option<Result<T, E>> ->
Result<Option<T>, E>`. -/
def optionTranspose {ε α : Type} : Option (Except ε α) → Except ε (Option α)
  | none => .ok none
  | some (.ok a) => .ok (some a)
  | some (.error e) => .error e

/-- `OpenIdClient::from_config`, with the fallible external calls
supplied by `env`. Mirrors the `?`-chain of the source: issuer parse,
discovery, then end-session resolution
`config.end_session_url.map(Url::parse).transpose()?.or_else(|| metadata
end_session_endpoint)`. -/
def from_config (env : DiscoveryEnv) (config : OpenIdConfig) :
    Except OAuth2Error OpenIdClient :=
  match env.parseIssuer config.issuer_url with
  | .error err => .error (OAuth2Error.Configuration ("invalid issuer URL: " ++ err))
  | .ok issuer =>
    match env.discover issuer with
    | .error err => .error (OAuth2Error.Configuration ("Failed to discover client: " ++ err))
    | .ok metadata =>
      match optionTranspose (config.end_session_url.map env.parseUrl) with
      | .error err =>
        .error (OAuth2Error.Configuration ("Unable to parse end_session_url: " ++ err))
      | .ok configured =>
        .ok { client := CoreClient.from_provider_metadata metadata config.client_id,
              end_session_url := configured.orElse (fun _ => metadata.end_session_endpoint) }

/-- `OpenIdClient::logout`. The browser collaborators are modelled
explicitly: `currentLocation` is the result of
`window().location().href()`, and the returned value is the URL passed
to `window().location().set_href(...)` (`none` when no navigation is
triggered). -/
def logout (self : OpenIdClient) (currentLocation : Except Unit String) : Option Url :=
  match self.end_session_url with
  | none => none
  | some url =>
    let url :=
      match currentLocation with
      | .ok current => url.appendPair "redirect_uri" current
      | .error _ => url
    some url

/-- The base64url (no padding) alphabet used by the `oauth2` crate's
PKCE encoding (`base64::URL_SAFE_NO_PAD`). -/
def base64urlAlphabet : List Char :=
  "ABCDEFGHIJKLMNOPQRSTUVWXYZabcdefghijklmnopqrstuvwxyz0123456789-_".toList

/-- The unreserved URL-safe alphabet of RFC 3986 §2.3 (the PKCE
code-verifier alphabet of RFC 7636 §4.1). -/
def unreservedChars : List Char :=
  "ABCDEFGHIJKLMNOPQRSTUVWXYZabcdefghijklmnopqrstuvwxyz0123456789-._~".toList

/-- The base64url digit for a 6-bit value. -/
def b64Char (n : Nat) : Char :=
  base64urlAlphabet.getD n 'A'

/-- base64url encoding without padding of a byte sequence, as performed
by `base64::encode_config(bytes, base64::URL_SAFE_NO_PAD)` in the
`oauth2` crate's PKCE implementation. -/
def base64urlNoPad : List Nat → List Char
  | [] => []
  | [a] => [b64Char (a / 4), b64Char (a % 4 * 16)]
  | [a, b] => [b64Char (a / 4), b64Char (a % 4 * 16 + b / 16), b64Char (b % 16 * 4)]
  | a :: b :: c :: rest =>
    b64Char (a / 4) :: b64Char (a % 4 * 16 + b / 16) :: b64Char (b % 16 * 4 + c / 64) ::
      b64Char (c % 64) :: base64urlNoPad rest

/-- The byte sequence of an ASCII string (`str::as_bytes`). -/
def asciiBytes (s : String) : List Nat :=
  s.toList.map Char.toNat

/-- The S256 PKCE transform of the `oauth2` crate
(`PkceCodeChallenge::from_code_verifier_sha256`): base64url-encode the
SHA-256 digest of the verifier's bytes. The SHA-256 digest function is
a parameter: the engine relies on no property of it beyond being a
function. -/
def pkceChallengeS256 (sha256 : List Nat → List Nat) (verifier : String) : String :=
  String.mk (base64urlNoPad (sha256 (asciiBytes verifier)))

/-- `PkceCodeChallenge::new_random_sha256` of the `oauth2` crate: the
verifier is the base64url encoding of 32 random bytes (supplied here as
`randomBytes`), and the challenge is the S256 transform of the
verifier. Returns `(challenge, verifier)`. -/
def newRandomSha256 (sha256 : List Nat → List Nat) (randomBytes : List Nat) :
    String × String :=
  let verifier := String.mk (base64urlNoPad randomBytes)
  (pkceChallengeS256 sha256 verifier, verifier)

/-- The random material consumed by one `make_login_context` call: the
PKCE verifier's random bytes, the CSRF token, and the nonce. -/
structure Rng where
  pkceBytes : List Nat
  csrf : String
  nonce : String

/-- The authorization URL built by
`client.authorize_url(AuthorizationCode, ...)` with the configured
scopes added, the PKCE challenge set, and `.url()` called: the
`openidconnect` crate sets `response_type=code`, always adds the
`openid` scope before the caller-added scopes (space-joined into one
`scope` parameter), and appends the state (CSRF token), the PKCE
challenge with method `S256`, and the nonce as query parameters of the
provider's authorization endpoint. -/
def authorizeUrl (client : CoreClient) (scopes : List String)
    (csrf nonce challenge : String) : Url :=
  let scopeStr := String.intercalate " " ("openid" :: scopes)
  { base := client.auth_url.base,
    query := client.auth_url.query ++
      [("response_type", "code"), ("client_id", client.client_id)] ++
      (match client.redirect_uri with
       | some r => [("redirect_uri", r.render)]
       | none => []) ++
      [("scope", scopeStr),
       ("code_challenge", challenge),
       ("code_challenge_method", "S256"),
       ("state", csrf),
       ("nonce", nonce)] }

/-- `OpenIdClient::make_login_context`: rebinds the redirect URI for
this attempt, draws the PKCE pair, CSRF token and nonce from `rng`,
builds the authorization URL, and returns the login context. -/
def make_login_context (self : OpenIdClient) (sha256 : List Nat → List Nat)
    (rng : Rng) (config : InnerConfig) (redirect_url : Url) :
    Except OAuth2Error LoginContext :=
  let client := self.client.set_redirect_uri redirect_url
  let pair := newRandomSha256 sha256 rng.pkceBytes
  let url := authorizeUrl client config.scopes rng.csrf rng.nonce pair.1
  .ok { url := url,
        csrf_token := rng.csrf,
        state := { pkce_verifier := pair.2, nonce := rng.nonce } }

/-- The external collaborators of the token-exchange operations: the
token endpoint called with `(code, pkce_verifier)`
(`exchange_code(...).set_pkce_verifier(...).request_async`), the token
endpoint called with a refresh token
(`exchange_refresh_token(...).request_async`), identity-token
verification at a given nonce (`IdToken::into_claims` with the client's
verifier), and the current time in seconds (`Date::now() / 1000`). -/
structure TokenEnv where
  tokenEndpoint : String → String → Except String CoreTokenResponse
  refreshEndpoint : String → Except String CoreTokenResponse
  verify : IdToken → String → Except String Claims
  now : Nat

/-- `OpenIdClient::exchange_code`: submit the code and the stored PKCE
verifier; require an identity token in the response; verify it against
the stored nonce; on success build the `Authenticated` context and
return it with the shared claims handle. -/
def exchange_code (env : TokenEnv) (code : String) (state : OpenIdLoginState) :
    Except OAuth2Error (OAuth2Context × Claims) :=
  match env.tokenEndpoint code state.pkce_verifier with
  | .error err => .error (OAuth2Error.LoginResult ("failed to exchange code: " ++ err))
  | .ok result =>
    match result.id_token with
    | none => .error (OAuth2Error.LoginResult "Server did not return an ID token")
    | some id_token =>
      match env.verify id_token state.nonce with
      | .error err => .error (OAuth2Error.LoginResult ("failed to verify ID token: " ++ err))
      | .ok claims =>
        .ok (OAuth2Context.Authenticated
              { access_token := result.access_token,
                refresh_token := result.refresh_token,
                expires := expires env.now result.expires_in,
                claims := some claims },
             claims)

/-- `OpenIdClient::exchange_refresh_token`: submit the refresh token;
on success rebuild `Authenticated` from the response, carrying the
previous session claims forward unchanged. -/
def exchange_refresh_token (env : TokenEnv) (refresh_token : String)
    (session_state : Claims) : Except OAuth2Error (OAuth2Context × Claims) :=
  match env.refreshEndpoint refresh_token with
  | .error err =>
    .error (OAuth2Error.LoginResult ("failed to exchange refresh token: " ++ err))
  | .ok result =>
    .ok (OAuth2Context.Authenticated
          { access_token := result.access_token,
            refresh_token := result.refresh_token,
            expires := expires env.now result.expires_in,
            claims := some session_state },
         session_state)

/-! ## Theorems -/

/-- C1: every successful `exchange_code` call returns an `Authenticated`
context whose access token is the response's access token, whose
refresh token is present iff (and equal to) the response's, whose
claims are `some` of the verified claims, and whose expiry is `now +
declared lifetime` when the response reports one and absent otherwise;
the returned session handle is the same claims value stored in the
context. -/
theorem exchange_code_success_shape (env : TokenEnv) (code : String)
    (state : OpenIdLoginState) (r : CoreTokenResponse) (t : IdToken) (c : Claims)
    (hTok : env.tokenEndpoint code state.pkce_verifier = .ok r)
    (hId : r.id_token = some t)
    (hVer : env.verify t state.nonce = .ok c) :
    exchange_code env code state = .ok
      (OAuth2Context.Authenticated
        { access_token := r.access_token,
          refresh_token := r.refresh_token,
          expires := r.expires_in.map (fun d => env.now + d),
          claims := some c },
       c) := by
  simp [exchange_code, hTok, hId, hVer, expires]

def wResponse : CoreTokenResponse :=
  { access_token := "AT1", refresh_token := none, expires_in := some 3600,
    id_token := some { raw := "idt" } }

def wEnv : TokenEnv :=
  { tokenEndpoint := fun _ _ => .ok wResponse,
    refreshEndpoint := fun _ => .ok wResponse,
    verify := fun _ _ => .ok { payload := "sub" },
    now := 100 }

theorem exchange_code_success_shape_witness :
    exchange_code wEnv "auth-code-1" { pkce_verifier := "v", nonce := "n" } = .ok
      (OAuth2Context.Authenticated
        { access_token := "AT1", refresh_token := none,
          expires := some 3700, claims := some { payload := "sub" } },
       { payload := "sub" }) :=
  exchange_code_success_shape wEnv "auth-code-1" { pkce_verifier := "v", nonce := "n" }
    wResponse { raw := "idt" } { payload := "sub" } rfl rfl rfl

/-- C3: when the token round trip succeeds but the response has no
identity token, `exchange_code` fails with a `LoginResult` error whose
message names the missing ID token, and no context or handle is
produced. -/
theorem exchange_code_missing_id_token (env : TokenEnv) (code : String)
    (state : OpenIdLoginState) (r : CoreTokenResponse)
    (hTok : env.tokenEndpoint code state.pkce_verifier = .ok r)
    (hId : r.id_token = none) :
    exchange_code env code state =
      .error (OAuth2Error.LoginResult "Server did not return an ID token") := by
  simp [exchange_code, hTok, hId]

def wResponseNoId : CoreTokenResponse :=
  { access_token := "AT1", refresh_token := none, expires_in := none, id_token := none }

def wEnvNoId : TokenEnv := { wEnv with tokenEndpoint := fun _ _ => .ok wResponseNoId }

theorem exchange_code_missing_id_token_witness :
    exchange_code wEnvNoId "auth-code-1" { pkce_verifier := "v", nonce := "n" } =
      .error (OAuth2Error.LoginResult "Server did not return an ID token") :=
  exchange_code_missing_id_token wEnvNoId "auth-code-1"
    { pkce_verifier := "v", nonce := "n" } wResponseNoId rfl rfl

/-- C4: every successful `exchange_refresh_token` call carries the
previous verified claims forward unchanged (same claims value in the
context and as the returned handle, no re-verification), and the
refresh token of the result is the one in the provider's response if
present, else absent — the previous refresh token is dropped when the
response omits one (it is not even an input to the rebuild). -/
theorem exchange_refresh_token_keeps_claims (env : TokenEnv) (refresh_token : String)
    (prev : Claims) (r : CoreTokenResponse)
    (hTok : env.refreshEndpoint refresh_token = .ok r) :
    exchange_refresh_token env refresh_token prev = .ok
      (OAuth2Context.Authenticated
        { access_token := r.access_token,
          refresh_token := r.refresh_token,
          expires := r.expires_in.map (fun d => env.now + d),
          claims := some prev },
       prev) := by
  simp [exchange_refresh_token, hTok, expires]

theorem exchange_refresh_token_keeps_claims_witness :
    exchange_refresh_token wEnv "RT0" { payload := "old" } = .ok
      (OAuth2Context.Authenticated
        { access_token := "AT1", refresh_token := none,
          expires := some 3700, claims := some { payload := "old" } },
       { payload := "old" }) :=
  exchange_refresh_token_keeps_claims wEnv "RT0" { payload := "old" } wResponse rfl

/-- C5: once issuer parsing and discovery succeed, `from_config`
resolves the effective end-session URL as the explicitly configured
value when present and parseable, else the provider-discovered
end-session endpoint; it fails with a `Configuration` error when the
configured value is present but unparseable, and an absent configured
value is never an error. -/
theorem from_config_end_session_resolution (env : DiscoveryEnv) (config : OpenIdConfig)
    (issuer : Url) (metadata : ExtendedProviderMetadata)
    (hIss : env.parseIssuer config.issuer_url = .ok issuer)
    (hDisc : env.discover issuer = .ok metadata) :
    (∀ s u, config.end_session_url = some s → env.parseUrl s = .ok u →
      from_config env config = .ok
        { client := CoreClient.from_provider_metadata metadata config.client_id,
          end_session_url := some u }) ∧
    (∀ s e, config.end_session_url = some s → env.parseUrl s = .error e →
      from_config env config =
        .error (OAuth2Error.Configuration ("Unable to parse end_session_url: " ++ e))) ∧
    (config.end_session_url = none →
      from_config env config = .ok
        { client := CoreClient.from_provider_metadata metadata config.client_id,
          end_session_url := metadata.end_session_endpoint }) := by
  refine ⟨?_, ?_, ?_⟩
  · intro s u hs hu
    simp [from_config, hIss, hDisc, hs, hu, optionTranspose, Option.orElse]
  · intro s e hs he
    simp [from_config, hIss, hDisc, hs, he, optionTranspose]
  · intro hs
    simp [from_config, hIss, hDisc, hs, optionTranspose, Option.orElse]

def wMeta : ExtendedProviderMetadata :=
  { auth_url := { base := "https://idp.example/auth", query := [] },
    end_session_endpoint := some { base := "https://idp.example/discovered", query := [] } }

def wDiscEnv : DiscoveryEnv :=
  { parseIssuer := fun s => .ok { base := s, query := [] },
    parseUrl := fun s => .ok { base := s, query := [] },
    discover := fun _ => .ok wMeta }

theorem from_config_end_session_resolution_witness :
    from_config wDiscEnv
      { issuer_url := "https://idp.example/realm", client_id := "app1",
        end_session_url := some "https://idp.example/logout" } = .ok
      { client := CoreClient.from_provider_metadata wMeta "app1",
        end_session_url := some { base := "https://idp.example/logout", query := [] } } :=
  (from_config_end_session_resolution wDiscEnv
      { issuer_url := "https://idp.example/realm", client_id := "app1",
        end_session_url := some "https://idp.example/logout" }
      { base := "https://idp.example/realm", query := [] } wMeta rfl rfl).1
    "https://idp.example/logout" { base := "https://idp.example/logout", query := [] }
    rfl rfl

/-- C6: with a configured end-session URL and a readable current
location, `logout` navigates to that URL extended with a
`redirect_uri` query pair set to the current location; with no
configured end-session URL it performs no navigation. -/
theorem logout_navigation (self : OpenIdClient) (currentLocation : Except Unit String) :
    (∀ u loc, self.end_session_url = some u → currentLocation = .ok loc →
      logout self currentLocation = some (u.appendPair "redirect_uri" loc)) ∧
    (self.end_session_url = none → logout self currentLocation = none) := by
  refine ⟨?_, ?_⟩
  · intro u loc hu hl
    simp [logout, hu, hl]
  · intro hu
    simp [logout, hu]

def wLogoutClient : OpenIdClient :=
  { client := { client_id := "app1",
                auth_url := { base := "https://idp.example/auth", query := [] },
                redirect_uri := none },
    end_session_url := some { base := "https://idp.example/logout", query := [] } }

theorem logout_navigation_witness :
    logout wLogoutClient (.ok "https://app.example/page") =
      some { base := "https://idp.example/logout",
             query := [("redirect_uri", "https://app.example/page")] } :=
  (logout_navigation wLogoutClient (.ok "https://app.example/page")).1
    { base := "https://idp.example/logout", query := [] } "https://app.example/page" rfl rfl

/-- C10: with a configured end-session URL but an unreadable current
location, `logout` still navigates to the end-session URL, with no
`redirect_uri` pair appended. -/
theorem logout_without_location (self : OpenIdClient) (u : Url)
    (currentLocation : Except Unit String)
    (hu : self.end_session_url = some u) (hl : currentLocation = .error ()) :
    logout self currentLocation = some u := by
  simp [logout, hu, hl]

theorem logout_without_location_witness :
    logout wLogoutClient (.error ()) =
      some { base := "https://idp.example/logout", query := [] } :=
  logout_without_location wLogoutClient
    { base := "https://idp.example/logout", query := [] } (.error ()) rfl rfl

/-- C9: `make_login_context` always returns a success value, for every
engine, hash function, randomness, configuration and redirect URL; in
this embedding it is a pure function (no network environment is even
among its inputs). -/
theorem make_login_context_total (self : OpenIdClient) (sha256 : List Nat → List Nat)
    (rng : Rng) (config : InnerConfig) (redirect_url : Url) :
    (make_login_context self sha256 rng config redirect_url).isOk = true := rfl

/-! ### base64url encoding facts (for the PKCE claims) -/

theorem b64Char_mem (n : Nat) : b64Char n ∈ base64urlAlphabet := by
  unfold b64Char List.getD
  rcases h : base64urlAlphabet.get? n with _ | c
  · simp [h]
    decide
  · simp [h]
    exact List.get?_mem h

theorem base64urlNoPad_length :
    ∀ l : List Nat, (base64urlNoPad l).length = (l.length * 4 + 2) / 3
  | [] => rfl
  | [_] => by simp [base64urlNoPad]
  | [_, _] => by simp [base64urlNoPad]
  | _ :: _ :: _ :: rest => by
    have ih := base64urlNoPad_length rest
    simp [base64urlNoPad, ih]
    omega

theorem base64urlNoPad_mem :
    ∀ l : List Nat, ∀ ch ∈ base64urlNoPad l, ch ∈ base64urlAlphabet
  | [] => by simp [base64urlNoPad]
  | [a] => by
    intro ch hch
    simp [base64urlNoPad] at hch
    rcases hch with h | h <;> subst h <;> exact b64Char_mem _
  | [a, b] => by
    intro ch hch
    simp [base64urlNoPad] at hch
    rcases hch with h | h | h <;> subst h <;> exact b64Char_mem _
  | a :: b :: c :: rest => by
    intro ch hch
    simp [base64urlNoPad] at hch
    rcases hch with h | h | h | h | h
    · subst h; exact b64Char_mem _
    · subst h; exact b64Char_mem _
    · subst h; exact b64Char_mem _
    · subst h; exact b64Char_mem _
    · exact base64urlNoPad_mem rest ch h

theorem base64urlAlphabet_subset_unreserved :
    ∀ ch ∈ base64urlAlphabet, ch ∈ unreservedChars := by decide

/-- C2: the login state returned by `make_login_context` stores exactly
the nonce embedded in the authorization URL, and `exchange_code`
consults the identity-token verifier only at that stored nonce: its
result is unchanged when the verifier is replaced by any function
agreeing with it at the stored nonce. -/
theorem nonce_round_trip (self : OpenIdClient) (sha256 : List Nat → List Nat)
    (rng : Rng) (config : InnerConfig) (redirect_url : Url) (lc : LoginContext)
    (h : make_login_context self sha256 rng config redirect_url = .ok lc) :
    lc.state.nonce = rng.nonce ∧
    ("nonce", lc.state.nonce) ∈ lc.url.query ∧
    (∀ (env : TokenEnv) (v : IdToken → String → Except String Claims) (code : String),
      (∀ t, v t lc.state.nonce = env.verify t lc.state.nonce) →
      exchange_code { env with verify := v } code lc.state =
        exchange_code env code lc.state) := by
  simp only [make_login_context, Except.ok.injEq] at h
  subst h
  refine ⟨rfl, ?_, ?_⟩
  · simp [authorizeUrl]
  · intro env v code hv
    obtain ⟨te, re, ve, n⟩ := env
    have hv2 : ∀ t, v t rng.nonce = ve t rng.nonce := hv
    rcases h1 : te code (newRandomSha256 sha256 rng.pkceBytes).2 with e | r
    · simp [exchange_code, h1]
    · rcases h2 : r.id_token with _ | t
      · simp [exchange_code, h1, h2]
      · simp only [exchange_code, h1, h2]
        rw [hv2 t]

def wSha : List Nat → List Nat := fun _ => List.replicate 32 0

def wRng : Rng := { pkceBytes := List.replicate 32 0, csrf := "S1", nonce := "N1" }

def wScopes : InnerConfig := { scopes := ["openid", "profile"] }

def wRedirect : Url := { base := "https://app.example/cb", query := [] }

def wOidClient : OpenIdClient :=
  { client := { client_id := "app1",
                auth_url := { base := "https://idp.example/auth", query := [] },
                redirect_uri := none },
    end_session_url := none }

def wLc : LoginContext :=
  { url := authorizeUrl (wOidClient.client.set_redirect_uri wRedirect) wScopes.scopes
      "S1" "N1" (newRandomSha256 wSha wRng.pkceBytes).1,
    csrf_token := "S1",
    state := { pkce_verifier := (newRandomSha256 wSha wRng.pkceBytes).2, nonce := "N1" } }

def wVerifyB : IdToken → String → Except String Claims := fun _ _ => .ok { payload := "sub" }

theorem nonce_round_trip_witness :
    exchange_code { wEnv with verify := wVerifyB } "auth-code-1" wLc.state =
      exchange_code wEnv "auth-code-1" wLc.state :=
  (nonce_round_trip wOidClient wSha wRng wScopes wRedirect wLc rfl).2.2
    wEnv wVerifyB "auth-code-1" (fun _ => rfl)

/-- C7: for `make_login_context` run on 32 random bytes (as drawn by
`PkceCodeChallenge::new_random_sha256`), the stored PKCE verifier is
43 characters (hence within the 43–128 window) over the unreserved
URL-safe alphabet, and the `code_challenge` embedded in the
authorization URL is exactly the S256 PKCE transform of that
verifier. -/
theorem pkce_verifier_challenge_roundtrip (self : OpenIdClient)
    (sha256 : List Nat → List Nat) (rng : Rng) (config : InnerConfig)
    (redirect_url : Url) (lc : LoginContext)
    (h : make_login_context self sha256 rng config redirect_url = .ok lc)
    (hLen : rng.pkceBytes.length = 32)
    (_hBytes : ∀ b ∈ rng.pkceBytes, b < 256) :
    (43 ≤ lc.state.pkce_verifier.length ∧ lc.state.pkce_verifier.length ≤ 128) ∧
    (∀ ch ∈ lc.state.pkce_verifier.toList, ch ∈ unreservedChars) ∧
    ("code_challenge", pkceChallengeS256 sha256 lc.state.pkce_verifier) ∈
      lc.url.query := by
  simp only [make_login_context, Except.ok.injEq] at h
  subst h
  have hl : (base64urlNoPad rng.pkceBytes).length = 43 := by
    rw [base64urlNoPad_length, hLen]
  refine ⟨?_, ?_, ?_⟩
  · show 43 ≤ (String.mk (base64urlNoPad rng.pkceBytes)).length ∧
      (String.mk (base64urlNoPad rng.pkceBytes)).length ≤ 128
    show 43 ≤ (base64urlNoPad rng.pkceBytes).length ∧
      (base64urlNoPad rng.pkceBytes).length ≤ 128
    omega
  · show ∀ ch ∈ (String.mk (base64urlNoPad rng.pkceBytes)).toList, ch ∈ unreservedChars
    intro ch hch
    exact base64urlAlphabet_subset_unreserved ch (base64urlNoPad_mem _ ch hch)
  · simp [authorizeUrl, newRandomSha256]

theorem pkce_verifier_challenge_roundtrip_witness :
    (43 ≤ wLc.state.pkce_verifier.length ∧ wLc.state.pkce_verifier.length ≤ 128) ∧
    ("code_challenge", pkceChallengeS256 wSha wLc.state.pkce_verifier) ∈
      wLc.url.query := by
  have h := pkce_verifier_challenge_roundtrip wOidClient wSha wRng wScopes wRedirect wLc
    rfl (by decide) (by decide)
  exact ⟨h.1, h.2.2⟩

/-- C8: the authorization URL built by `make_login_context` uses
response type `code` and embeds the client id, the supplied redirect
URI, the configured scopes in caller-supplied order (space-joined after
the `openid` scope the library always adds), the PKCE challenge with
declared method `S256`, the CSRF token as the `state` parameter, and
the nonce. -/
theorem make_login_context_url_params (self : OpenIdClient)
    (sha256 : List Nat → List Nat) (rng : Rng) (config : InnerConfig)
    (redirect_url : Url) (lc : LoginContext)
    (h : make_login_context self sha256 rng config redirect_url = .ok lc) :
    ("response_type", "code") ∈ lc.url.query ∧
    ("client_id", self.client.client_id) ∈ lc.url.query ∧
    ("redirect_uri", redirect_url.render) ∈ lc.url.query ∧
    ("scope", String.intercalate " " ("openid" :: config.scopes)) ∈ lc.url.query ∧
    ("code_challenge", (newRandomSha256 sha256 rng.pkceBytes).1) ∈ lc.url.query ∧
    ("code_challenge_method", "S256") ∈ lc.url.query ∧
    ("state", rng.csrf) ∈ lc.url.query ∧
    ("nonce", rng.nonce) ∈ lc.url.query := by
  simp only [make_login_context, Except.ok.injEq] at h
  subst h
  refine ⟨?_, ?_, ?_, ?_, ?_, ?_, ?_, ?_⟩ <;>
    simp [authorizeUrl, CoreClient.set_redirect_uri]

theorem make_login_context_url_params_witness :
    ("response_type", "code") ∈ wLc.url.query ∧
    ("client_id", wOidClient.client.client_id) ∈ wLc.url.query ∧
    ("redirect_uri", wRedirect.render) ∈ wLc.url.query ∧
    ("scope", String.intercalate " " ("openid" :: wScopes.scopes)) ∈ wLc.url.query ∧
    ("code_challenge", (newRandomSha256 wSha wRng.pkceBytes).1) ∈ wLc.url.query ∧
    ("code_challenge_method", "S256") ∈ wLc.url.query ∧
    ("state", wRng.csrf) ∈ wLc.url.query ∧
    ("nonce", wRng.nonce) ∈ wLc.url.query :=
  make_login_context_url_params wOidClient wSha wRng wScopes wRedirect wLc rfl

end YewOAuth2
